import Mathlib

/-
Verification of the duf HTTP file server (src/server.rs, src/args.rs) against
its natural-language specification.

The request handler `Server::handle` and its helpers are shallowly embedded
below.  Paths are strings with `/` as separator (the unix branch of every
`cfg!(windows)` check in the source).  Machine integers (u64 sizes, u32
depth) are naturals with explicit bounds or wrap-around where the Rust code
can overflow.  The filesystem, which the server only queries through
`tokio::fs`, is a record of oracle functions, so one concrete request is a
pure computation.

Modules of the repository that are not part of the given sources
(src/auth.rs, src/utils.rs, src/streamer.rs, external crates) are modelled
from the specification's description of their interfaces; each such
definition carries a doc comment saying so.
-/

/-! ## List-level string utilities

String parsing in the source uses Rust's `split`, `splitn`, `strip_prefix`
and friends.  They are embedded here as structural recursions over `List
Char` so that every concrete instance reduces inside the kernel. -/

/-- Rust `str::splitn(2, c)`: the part before the first occurrence of `c`,
and (when `c` occurs) the remainder after it. -/
def splitFirst (c : Char) : List Char → (List Char × Option (List Char))
  | [] => ([], none)
  | x :: xs =>
    if x = c then ([], some xs)
    else
      let r := splitFirst c xs
      (x :: r.1, r.2)

/-- Rust `str::split(c)` (keeps empty pieces, never returns an empty list). -/
def splitChar (c : Char) : List Char → List (List Char)
  | [] => [[]]
  | x :: xs =>
    let r := splitChar c xs
    if x = c then [] :: r
    else
      match r with
      | h :: t => (x :: h) :: t
      | [] => [[x]]

/-- Join pieces with a separator character (inverse of `splitChar`). -/
def joinChar (c : Char) : List (List Char) → List Char
  | [] => []
  | [x] => x
  | x :: xs => x ++ c :: joinChar c xs

/-- Whether the first list starts with the second one. -/
def listStartsWith : List Char → List Char → Bool
  | _, [] => true
  | [], _ :: _ => false
  | x :: xs, y :: ys => x == y && listStartsWith xs ys

/-- Whether `needle` occurs as a contiguous sublist of `hay`. -/
def listContainsSub (hay needle : List Char) : Bool :=
  match hay with
  | [] => needle == []
  | _ :: t => listStartsWith hay needle || listContainsSub t needle

/-- Decimal-digit accumulation used by `parseUBounded`. -/
def digitsToNatAux (acc : Nat) : List Char → Option Nat
  | [] => some acc
  | c :: cs =>
    if c.isDigit then digitsToNatAux (acc * 10 + (c.toNat - '0'.toNat)) cs
    else none

/-- Rust `str::parse::<uN>()`: an optional leading `+`, then one or more
decimal digits, rejecting values at or above `bound` (the overflow check). -/
def parseUBounded (bound : Nat) (l : List Char) : Option Nat :=
  let l2 := match l with
    | '+' :: rest => rest
    | _ => l
  match l2 with
  | [] => none
  | _ =>
    match digitsToNatAux 0 l2 with
    | some n => if n < bound then some n else none
    | none => none

/-- Size of the u64 value space; `parse::<u64>` rejects anything at or
above it and the server's size arithmetic wraps modulo it. -/
def u64size : Nat := 2 ^ 64

/-- Size of the u32 value space (the PROPFIND depth is parsed as u32). -/
def u32size : Nat := 2 ^ 32

/-- Wrapping u64 subtraction, the release-mode semantics of `a - b` on u64. -/
def u64sub (a b : Nat) : Nat := (a + u64size - b) % u64size

/-! ## Path model

Filesystem paths are strings with `/` separators (the server's unix
configuration: every `cfg!(windows)` branch of the source is off). -/

/-- Rust `Path::join` on unix: an absolute right operand replaces the base. -/
def pathJoin (base p : String) : String :=
  if p.data = [] then base
  else if p.data.head? = some '/' then p
  else base ++ "/" ++ p

/-- Rust `Path::starts_with`: component-wise prefix test. -/
def pathStartsWith (p base : String) : Bool :=
  p == base || listStartsWith p.data (base ++ "/").data

/-- Rust `Path::strip_prefix` (component-wise; an empty prefix strips
nothing). -/
def stripPrefixPath (p pre : String) : Option String :=
  if pre = "" then some p
  else if p = pre then some ""
  else if listStartsWith p.data (pre ++ "/").data then
    some (String.mk (p.data.drop (pre.data.length + 1)))
  else none

/-- Rust `Path::file_name`: the last nonempty component, none for a path
ending in `..` or with no components. -/
def fileName (p : String) : Option String :=
  let comps := (splitChar '/' p.data).filter (fun c => c ≠ [])
  match comps.getLast? with
  | some c => if c = ['.', '.'] then none else some (String.mk c)
  | none => none

/-- Rust `Path::parent` (as used by `ensure_path_parent`). -/
def parentDir (p : String) : Option String :=
  if p = "/" ∨ p = "" then none
  else some (String.mk (joinChar '/' (splitChar '/' p.data).dropLast))

/-- Rust `Path::extension().is_some()`, the test in `handle_render_spa`:
the file name has a `.` after its first character. -/
def hasExtension (p : String) : Bool :=
  match fileName p with
  | some n => (n.data.drop 1).contains '.'
  | none => false

/-! ## Percent coding

Modelled from the spec: the helpers `encode_uri`/`decode_uri` live in
src/utils.rs, which is not among the given sources.  Per the spec, decoding
rejects invalid percent escapes, and encoding percent-escapes everything
outside the unreserved set plus `/`. -/

/-- Value of one hexadecimal digit. -/
def hexVal (c : Char) : Option Nat :=
  if '0' ≤ c ∧ c ≤ '9' then some (c.toNat - '0'.toNat)
  else if 'a' ≤ c ∧ c ≤ 'f' then some (c.toNat - 'a'.toNat + 10)
  else if 'A' ≤ c ∧ c ≤ 'F' then some (c.toNat - 'A'.toNat + 10)
  else none

/-- Percent-decode a character list; an incomplete or non-hex escape fails. -/
def pctDecode : List Char → Option (List Char)
  | [] => some []
  | '%' :: a :: b :: rest =>
    match hexVal a, hexVal b with
    | some ha, some hb => (pctDecode rest).map (fun l => Char.ofNat (ha * 16 + hb) :: l)
    | _, _ => none
  | '%' :: _ => none
  | c :: rest => (pctDecode rest).map (fun l => c :: l)

/-- Modelled from the spec: `decode_uri` of src/utils.rs, "percent-decode
(invalid percent escapes → reject)". -/
def decode_uri (s : String) : Option String :=
  (pctDecode s.data).map String.mk

/-- Characters `encode_uri` leaves as-is. -/
def uriKeep (c : Char) : Bool :=
  c.isAlphanum || c == '-' || c == '.' || c == '_' || c == '~' || c == '/'

/-- Upper-case hex digit of a value below 16. -/
def hexDigit (n : Nat) : Char :=
  if n < 10 then Char.ofNat ('0'.toNat + n) else Char.ofNat ('A'.toNat + n - 10)

/-- Percent-encode a character list (ASCII-level). -/
def pctEncode : List Char → List Char
  | [] => []
  | c :: rest =>
    if uriKeep c then c :: pctEncode rest
    else '%' :: hexDigit (c.toNat / 16 % 16) :: hexDigit (c.toNat % 16) :: pctEncode rest

/-- Modelled from the spec: `encode_uri` of src/utils.rs, percent-encoding
for file names placed in headers and hrefs. -/
def encode_uri (s : String) : String :=
  String.mk (pctEncode s.data)

/-! ## Data model: filesystem, configuration, requests, responses -/

/-- Result of a `std::fs`/`tokio::fs` metadata query. -/
structure FileMeta where
  is_dir : Bool
  is_file : Bool
  is_symlink : Bool
  len : Nat
  modified : Option Nat
  deriving DecidableEq

/-- The filesystem as the server observes it, plus the two sources of
nondeterminism used by the LOCK handler (clock and UUID).  `content` gives
a file's bytes, `create_ok` whether `File::create` would succeed,
`read_dir` a directory's entry paths, `walkdir` the recursive walk used by
search.  The model treats `create_dir_all`, `remove_*`, `copy` and
`rename` as succeeding; their invocations are recorded as effects. -/
structure Fs where
  metadata : String → Option FileMeta
  symlink_metadata : String → Option FileMeta
  canonicalize : String → Option String
  read_dir : String → Option (List String)
  walkdir : String → List String
  content : String → List Nat
  create_ok : String → Bool
  uuid : String
  now_ts : Nat

/-- Modelled from the spec: the verdict of `AccessControl::guard` from
src/auth.rs (not among the given sources), "guard(path, method,
credentials) → {Pass, ReadOnly, Reject}". -/
inductive GuardType where
  | pass
  | readOnly
  | reject
  deriving DecidableEq

/-- The `GuardType::is_reject` test used by `Server::handle`. -/
def GuardType.is_reject : GuardType → Bool
  | .reject => true
  | _ => false

/-- The server configuration `Args` (src/args.rs), restricted to the fields
`Server::handle` reads.  `prefixPath` embeds the source field
`path_prefix` (already trimmed of `/` by `Args::parse`); `auth` is the
spec-modelled access controller, an oracle from (uri path, method,
authorization header) to a verdict. -/
structure Args where
  path : String
  path_is_file : Bool
  prefixPath : String
  allow_upload : Bool
  allow_delete : Bool
  allow_symlink : Bool
  render_index : Bool
  render_try_index : Bool
  render_spa : Bool
  auth : String → String → Option String → GuardType

/-- Value of an `If-None-Match` header as the `headers` crate parses it. -/
inductive INMatch where
  | star
  | tags (ts : List String)
  deriving DecidableEq

/-- Value of an `If-Range` header: an entity tag or an HTTP date (seconds). -/
inductive IfRangeVal where
  | etag (t : String)
  | date (d : Nat)
  deriving DecidableEq

/-- The request headers `Server::handle` and `handle_send_file` consult.
`range` is the raw header text (parsed by the source's own `parse_range`);
the conditional headers are carried pre-parsed, as the typed `headers`
crate delivers them.  `if_modified_since` and the date of `if_range` are
in seconds, `depth` is the raw header text. -/
structure ReqHeaders where
  range : Option String
  if_none_match : Option INMatch
  if_modified_since : Option Nat
  if_range : Option IfRangeVal
  depth : Option String
  authorization : Option String
  destination : Option String

/-- An HTTP request: method (as its token string), URI path, URI query
(empty when absent, as `query().unwrap_or_default()`), headers, body. -/
structure Req where
  method : String
  path : String
  query : String
  headers : ReqHeaders
  body : List Nat

/-- A directory entry as built by `Server::to_pathitem`. -/
inductive PathType where
  | Dir
  | SymlinkDir
  | File
  | SymlinkFile
  deriving DecidableEq

/-- Numeric rank of the derived `Ord` on `PathType` (declaration order). -/
def PathType.rank : PathType → Nat
  | .Dir => 0
  | .SymlinkDir => 1
  | .File => 2
  | .SymlinkFile => 3

/-- Directory-listing entry (struct `PathItem` of src/server.rs). -/
structure PathItem where
  path_type : PathType
  name : String
  mtime : Nat
  size : Option Nat
  deriving DecidableEq

/-- Strict lexicographic order on character lists (Rust's derived `Ord` on
`String`). -/
def listLexLt : List Char → List Char → Bool
  | [], [] => false
  | [], _ :: _ => true
  | _ :: _, [] => false
  | x :: xs, y :: ys => x < y || (x == y && listLexLt xs ys)

/-- The derived lexicographic `Ord` on `PathItem` used by `sort_unstable`,
as a boolean `≤` (kind, then name, then mtime; the size never decides
because equal names imply equal entries). -/
def pathItemLe (a b : PathItem) : Bool :=
  a.path_type.rank < b.path_type.rank ||
    (a.path_type.rank == b.path_type.rank &&
      (listLexLt a.name.data b.name.data ||
        (a.name == b.name && a.mtime ≤ b.mtime)))

/-- Response bodies, kept structural: streamed payloads carry the data the
source feeds the corresponding writer rather than the wire encoding
produced by external crates (async_zip, serde_json, chrono, the embedded
HTML assets). -/
inductive BodyModel where
  | empty
  | text (s : String)
  | fileBytes (b : List Nat)
  | zipStream (dir : String)
  | htmlIndex (breadcrumb : String) (items : List PathItem) (dirExists : Bool)
  | davXml (items : List PathItem)
  | lockXml (token : String) (href : String)
  | proppatchXml (href : String)
  | faviconBytes
  deriving DecidableEq

/-- The slice of a `hyper::Response` the handler writes: status plus the
headers the source inserts, each as a dedicated field, and the body. -/
structure Resp where
  status : Nat
  etagH : Option String
  lastModifiedH : Option Nat
  contentRange : Option String
  contentLength : Option Nat
  contentType : Option String
  contentDisposition : Option String
  acceptRanges : Bool
  allowH : Option String
  davH : Option String
  lockToken : Option String
  connectionClose : Bool
  wwwAuth : Bool
  body : BodyModel
  deriving DecidableEq

/-- `Response::default()`: status 200, no headers, empty body. -/
def Resp.base : Resp :=
  ⟨200, none, none, none, none, none, none, false, none, none, none, false, false, .empty⟩

/-- Filesystem side effects a request performs, in order. -/
inductive Effect where
  | createFile (p : String) (bytes : List Nat)
  | mkdirAll (p : String)
  | removeFile (p : String)
  | removeDirAll (p : String)
  | copyFile (src dst : String)
  | renameFile (src dst : String)
  deriving DecidableEq

/-! ## Small response builders (src/server.rs free functions) -/

/-- The `status_forbid` helper: 403 with body "Forbidden". -/
def status_forbid (r : Resp) : Resp :=
  { r with status := 403, body := .text "Forbidden" }

/-- The `status_not_found` helper: 404 with body "Not Found". -/
def status_not_found (r : Resp) : Resp :=
  { r with status := 404, body := .text "Not Found" }

/-- The `status_no_content` helper: 204. -/
def status_no_content (r : Resp) : Resp :=
  { r with status := 204 }

/-- The `set_webdav_headers` helper: `Allow` and `DAV` headers. -/
def set_webdav_headers (r : Resp) : Resp :=
  { r with allowH := some "GET,HEAD,PUT,OPTIONS,DELETE,PROPFIND,COPY,MOVE",
           davH := some "1,2" }

/-- The `Server::auth_reject` response: 401 challenge with webdav headers
and `Connection: close`. -/
def auth_reject_resp : Resp :=
  { set_webdav_headers Resp.base with connectionClose := true, wwwAuth := true, status := 401 }

/-- The `res_multistatus` helper, with the per-resource payload kept as the
list of items rendered into the XML envelope. -/
def res_multistatus (items : List PathItem) : Resp :=
  { Resp.base with
    status := 207,
    contentType := some "application/xml; charset=utf-8",
    body := .davXml items }

/-! ## Range and cache-header evaluation -/

/-- The struct `RangeValue` of src/server.rs (inclusive start, optional
inclusive end). -/
structure RangeValue where
  start : Nat
  end_ : Option Nat
  deriving DecidableEq

/-- The `parse_range` function of src/server.rs: `bytes=<start>[-[<end>]]`,
any other unit or malformed number yields no range. -/
def parse_range (hdr : String) : Option RangeValue :=
  let p := splitFirst '=' hdr.data
  if p.1 = "bytes".data then
    match p.2 with
    | none => none
    | some range =>
      let q := splitFirst '-' range
      match parseUBounded u64size q.1 with
      | none => none
      | some start =>
        match q.2 with
        | none => some ⟨start, none⟩
        | some e =>
          if e = [] then some ⟨start, none⟩
          else
            match parseUBounded u64size e with
            | some ev => some ⟨start, some ev⟩
            | none => none
  else none

/-- The `extract_cache_headers` function of src/server.rs: from a metadata
with a readable mtime (milliseconds), the strong ETag string
`"<mtime>-<size>"` and the mtime used for `Last-Modified`. -/
def extract_cache_headers (meta : FileMeta) : Option (String × Nat) :=
  meta.modified.map (fun mtime =>
    ("\"" ++ Nat.repr mtime ++ "-" ++ Nat.repr meta.len ++ "\"", mtime))

/-- Modelled from the spec: the `headers` crate's
`IfNoneMatch::precondition_passes`, negated — the request's validator list
matches the computed ETag ("equality; `*` matches any"). -/
def ifNoneMatchBlocks (inm : INMatch) (etag : String) : Bool :=
  match inm with
  | .star => true
  | .tags ts => ts.contains etag

/-- Modelled from the spec: the `headers` crate's
`IfModifiedSince::is_modified` — the truncated-to-second mtime is later
than the header's date. -/
def isModifiedAfter (mtimeMs imsSec : Nat) : Bool :=
  mtimeMs / 1000 > imsSec

/-- Modelled from the spec: the `headers` crate's `IfRange::is_modified` —
the representation changed relative to the supplied validator (ETag
inequality, or mtime after the supplied date). -/
def ifRangeModified (ir : IfRangeVal) (etag : String) (mtimeMs : Nat) : Bool :=
  match ir with
  | .etag t => !(t == etag)
  | .date d => mtimeMs / 1000 > d

/-- Modelled from the spec: the `mime_guess` crate lookup used for
`Content-Type`, restricted to the extensions this development exercises. -/
def mimeFromPath (p : String) : Option String :=
  match fileName p with
  | none => none
  | some n =>
    if listContainsSub n.data ".html".data then some "text/html"
    else if listContainsSub n.data ".txt".data then some "text/plain"
    else if listContainsSub n.data ".zip".data then some "application/zip"
    else if listContainsSub n.data ".ico".data then some "image/x-icon"
    else none

/-! ## Server helpers (impl Server, src/server.rs) -/

/-- The constant `INDEX_NAME` of src/server.rs. -/
def INDEX_NAME : String := "index.html"

/-- The `Server::is_root_contained` check: the path canonicalizes and the
result starts with the configured root. -/
def is_root_contained (A : Args) (F : Fs) (path : String) : Bool :=
  match F.canonicalize path with
  | some v => pathStartsWith v A.path
  | none => false

/-- The `Server::strip_path_prefix` step of path extraction (an empty
configured prefix passes the path through, otherwise `Path::strip_prefix`). -/
def stripPathPre (A : Args) (path : String) : Option String :=
  stripPrefixPath path A.prefixPath

/-- The `Server::extract_path` function: drop the leading `/`,
percent-decode (the windows separator substitution is off on unix), strip
the configured prefix, join onto the root. -/
def extract_path (A : Args) (path : String) : Option String :=
  match decode_uri (String.mk (path.data.drop 1)) with
  | none => none
  | some decoded =>
    match stripPathPre A decoded with
    | none => none
    | some stripped => some (pathJoin A.path stripped)

/-- The `Server::extract_dest` function; the `Destination` header is parsed
as a URI and its path fed to `extract_path`.  URI parsing (the `hyper`
crate) is modelled from the spec: the path component of an origin-form or
absolute-form reference. -/
def destUriPathAux : List Char → Option (List Char)
  | [] => none
  | ':' :: '/' :: '/' :: rest => some rest
  | _ :: rest => destUriPathAux rest

/-- Path component of a `Destination` URI (see `destUriPathAux`). -/
def destUriPath (s : String) : Option String :=
  if listStartsWith s.data ['/'] then some (String.mk (splitFirst '?' s.data).1)
  else
    match destUriPathAux s.data with
    | none => none
    | some rest =>
      match (splitFirst '/' rest).2 with
      | none => some "/"
      | some p => some (String.mk ('/' :: (splitFirst '?' p).1))

/-- The `Server::extract_dest` function of src/server.rs. -/
def extract_dest (A : Args) (h : ReqHeaders) : Option String :=
  match h.destination with
  | none => none
  | some d =>
    match destUriPath d with
    | none => none
    | some p => extract_path A p

/-- The `Server::to_pathitem` function.  Outer `none` is the `BoxResult`
error path (metadata/mtime failures), inner `none` the silent skip of a
symlink pointing outside the root. -/
def to_pathitem (A : Args) (F : Fs) (path basePath : String) : Option (Option PathItem) :=
  let rel := (stripPrefixPath path basePath).getD ""
  match F.metadata path, F.symlink_metadata path with
  | some meta, some meta2 =>
    let is_symlink := meta2.is_symlink
    if !A.allow_symlink && is_symlink && !(is_root_contained A F path) then some none
    else
      match meta.modified with
      | none => none
      | some mtime =>
        let is_dir := meta.is_dir
        let path_type : PathType :=
          match is_symlink, is_dir with
          | true, true => .SymlinkDir
          | false, true => .Dir
          | true, false => .SymlinkFile
          | false, false => .File
        let size : Option Nat :=
          match path_type with
          | .Dir | .SymlinkDir => none
          | .File | .SymlinkFile => some meta.len
        some (some ⟨path_type, rel, mtime, size⟩)
  | _, _ => none

/-- The `Server::list_dir` function: each directory entry that yields a
path item is kept, errors and skipped symlinks are dropped. -/
def list_dir (A : Args) (F : Fs) (entry_path basePath : String) : Option (List PathItem) :=
  (F.read_dir entry_path).map (fun entries =>
    entries.filterMap (fun e =>
      match to_pathitem A F e basePath with
      | some (some item) => some item
      | _ => none))

/-- The `Server::send_index` function.  The rendered HTML page inlines
external asset blobs, so the body carries the substituted JSON data
(breadcrumb, sorted entries, flags) instead of the final byte count, and no
`Content-Length` is modelled. -/
def send_index (A : Args) (path : String) (paths : List PathItem) (exist : Bool)
    (head_only : Bool) : Option Resp :=
  let sorted := List.mergeSort paths pathItemLe
  match stripPrefixPath path A.path with
  | none => none
  | some rel =>
    let breadcrumb := "/" ++ rel
    some { Resp.base with
           contentType := some "text/html; charset=utf-8",
           body := if head_only then .empty else .htmlIndex breadcrumb sorted exist }

/-! ## Request handlers (impl Server, src/server.rs) -/

/-- The `Server::handle_upload` function: ensure the parent directory,
create the target (403 on failure), stream the body in, 201. -/
def handle_upload (F : Fs) (path : String) (body : List Nat) : Option (Resp × List Effect) :=
  let parentEff : List Effect :=
    match parentDir path with
    | some par => if (F.symlink_metadata par).isNone then [.mkdirAll par] else []
    | none => []
  if F.create_ok path then
    some ({ Resp.base with status := 201 }, parentEff ++ [.createFile path body])
  else
    some (status_forbid Resp.base, parentEff)

/-- The `Server::handle_delete` function. -/
def handle_delete (path : String) (is_dir : Bool) : Option (Resp × List Effect) :=
  some (status_no_content Resp.base,
    [if is_dir then .removeDirAll path else .removeFile path])

/-- The `Server::handle_ls_dir` function. -/
def handle_ls_dir (A : Args) (F : Fs) (path : String) (exist : Bool)
    (head_only : Bool) : Option Resp :=
  if exist then
    match list_dir A F path path with
    | none => some (status_forbid Resp.base)
    | some paths => send_index A path paths exist head_only
  else send_index A path [] exist head_only

/-- The `Server::handle_query_dir` function: recursive walk, filenames
filtered by lowercased substring, entries failing `symlink_metadata` or
`to_pathitem` skipped. -/
def handle_query_dir (A : Args) (F : Fs) (path q : String)
    (head_only : Bool) : Option Resp :=
  let paths := (F.walkdir path).filterMap (fun e =>
    let nm := (fileName e).getD ""
    if !(listContainsSub (nm.data.map Char.toLower) (q.data.map Char.toLower)) then none
    else if (F.symlink_metadata e).isNone then none
    else
      match to_pathitem A F e path with
      | some (some item) => some item
      | _ => none)
  send_index A path paths true head_only

/-- The `Server::handle_zip_dir` function: attachment disposition with the
percent-encoded directory name, `application/zip`, and (unless HEAD) the
streamed archive of the subtree. -/
def handle_zip_dir (path : String) (head_only : Bool) : Option Resp :=
  match fileName path with
  | none => none
  | some filename =>
    some { Resp.base with
           contentDisposition :=
             some ("attachment; filename=\"" ++ encode_uri filename ++ ".zip\""),
           contentType := some "application/zip",
           body := if head_only then .empty else .zipStream path }

/-- The `Server::handle_send_file` function, following the source step by
step: conditional-request evaluation (early 304 return), validator
headers, `If-Range`, `parse_range`, content headers, then the three tails
— 206 slice, 416, or full body.  The byte window of the 206 body is the
spec-modelled `Streamer::into_stream_sized` (src/streamer.rs is not among
the given sources): exactly `part_size` bytes from offset `start`. -/
def handle_send_file (F : Fs) (path : String) (h : ReqHeaders)
    (head_only : Bool) : Option Resp :=
  match F.metadata path with
  | none => none
  | some meta =>
    let cache := extract_cache_headers meta
    let cached :=
      match cache with
      | some (etag, lm) =>
        match h.if_none_match with
        | some inm => ifNoneMatchBlocks inm etag
        | none =>
          match h.if_modified_since with
          | some ims => !(isModifiedAfter lm ims)
          | none => false
      | none => false
    if cached then some { Resp.base with status := 304 }
    else
      let r1 :=
        match cache with
        | some (etag, lm) => { Resp.base with etagH := some etag, lastModifiedH := some lm }
        | none => Resp.base
      let use_range :=
        match cache with
        | some (etag, lm) =>
          if h.range.isSome then
            match h.if_range with
            | some ir => !(ifRangeModified ir etag lm)
            | none => true
          else false
        | none => true
      let range := if use_range then h.range.bind parse_range else none
      let r2 := { r1 with
                  contentType := some ((mimeFromPath path).getD "application/octet-stream") }
      match fileName path with
      | none => none
      | some filename =>
        let r3 := { r2 with
                    contentDisposition :=
                      some ("inline; filename=\"" ++ encode_uri filename ++ "\""),
                    acceptRanges := true }
        let size := meta.len
        match range with
        | some rv =>
          let satisfiable : Bool :=
            match rv.end_ with
            | none => decide (rv.start < size)
            | some v => decide (v ≥ rv.start)
          if satisfiable then
            let e := min (rv.end_.getD (u64sub size 1)) (u64sub size 1)
            let part_size := (u64sub e rv.start + 1) % u64size
            let r4 := { r3 with
                        status := 206,
                        contentRange := some ("bytes " ++ Nat.repr rv.start ++ "-" ++
                          Nat.repr e ++ "/" ++ Nat.repr size),
                        contentLength := some part_size }
            if head_only then some r4
            else some { r4 with body := .fileBytes (((F.content path).drop rv.start).take part_size) }
          else
            some { r3 with
                   status := 416,
                   contentRange := some ("bytes */" ++ Nat.repr size) }
        | none =>
          let r4 := { r3 with contentLength := some size }
          if head_only then some r4
          else some { r4 with body := .fileBytes (F.content path) }

/-- The `Server::handle_render_index` function. -/
def handle_render_index (A : Args) (F : Fs) (path : String) (h : ReqHeaders)
    (head_only : Bool) : Option Resp :=
  let index_path := pathJoin path INDEX_NAME
  if ((F.metadata index_path).map (fun v => v.is_file)).getD false then
    handle_send_file F index_path h head_only
  else if A.render_try_index then
    handle_ls_dir A F path true head_only
  else some (status_not_found Resp.base)

/-- The `Server::handle_render_spa` function. -/
def handle_render_spa (A : Args) (F : Fs) (path : String) (h : ReqHeaders)
    (head_only : Bool) : Option Resp :=
  if !(hasExtension path) then
    handle_send_file F (pathJoin A.path INDEX_NAME) h head_only
  else some (status_not_found Resp.base)

/-- The `Server::handle_send_favicon` function: the on-disk override when
present, otherwise the embedded icon blob. -/
def handle_send_favicon (A : Args) (F : Fs) (h : ReqHeaders) : Option Resp :=
  let path := pathJoin A.path "favicon.ico"
  let is_file := ((F.metadata path).map (fun v => v.is_file)).getD false
  if is_file then handle_send_file F path h false
  else
    some { Resp.base with
           contentType := some "image/x-icon",
           body := .faviconBytes }

/-- Core of `Server::handle_propfind_dir` once the depth is known: self
item (its `BoxResult` error or skip makes the handler fail), then for a
nonzero depth the children via `list_dir` (403 on error). -/
def propfind_core (A : Args) (F : Fs) (path : String) (depth : Nat) : Option Resp :=
  match to_pathitem A F path A.path with
  | some (some selfItem) =>
    if depth ≠ 0 then
      match list_dir A F path A.path with
      | some children => some (res_multistatus (selfItem :: children))
      | none => some (status_forbid Resp.base)
    else some (res_multistatus [selfItem])
  | _ => none

/-- The `Server::handle_propfind_dir` function: the `depth` header is
parsed as u32 (400 on failure), defaulting to 1 when absent. -/
def handle_propfind_dir (A : Args) (F : Fs) (path : String)
    (h : ReqHeaders) : Option Resp :=
  match h.depth with
  | some v =>
    match parseUBounded u32size v.data with
    | some d => propfind_core A F path d
    | none => some { Resp.base with status := 400 }
  | none => propfind_core A F path 1

/-- The `Server::handle_propfind_file` function. -/
def handle_propfind_file (A : Args) (F : Fs) (path : String) : Option Resp :=
  match to_pathitem A F path A.path with
  | some (some item) => some (res_multistatus [item])
  | some none => some (status_not_found Resp.base)
  | none => none

/-- The `Server::handle_mkcol` function. -/
def handle_mkcol (path : String) : Option (Resp × List Effect) :=
  some ({ Resp.base with status := 201 }, [.mkdirAll path])

/-- The `Server::handle_copy` function. -/
def handle_copy (A : Args) (F : Fs) (path : String)
    (h : ReqHeaders) : Option (Resp × List Effect) :=
  match extract_dest A h with
  | none => some ({ Resp.base with status := 400 }, [])
  | some dest =>
    match F.symlink_metadata path with
    | none => none
    | some meta =>
      if meta.is_dir then some (status_forbid Resp.base, [])
      else
        let parentEff : List Effect :=
          match parentDir dest with
          | some par => if (F.symlink_metadata par).isNone then [.mkdirAll par] else []
          | none => []
        some (status_no_content Resp.base, parentEff ++ [.copyFile path dest])

/-- The `Server::handle_move` function. -/
def handle_move (A : Args) (F : Fs) (path : String)
    (h : ReqHeaders) : Option (Resp × List Effect) :=
  match extract_dest A h with
  | none => some ({ Resp.base with status := 400 }, [])
  | some dest =>
    let parentEff : List Effect :=
      match parentDir dest with
      | some par => if (F.symlink_metadata par).isNone then [.mkdirAll par] else []
      | none => []
    some (status_no_content Resp.base, parentEff ++ [.renameFile path dest])

/-- The `Server::handle_lock` function (fake lock): opaque token from the
UUID oracle when authorized, otherwise the clock oracle. -/
def handle_lock (F : Fs) (req_path : String) (auth : Bool) : Resp :=
  let token := if auth then "opaquelocktoken:" ++ F.uuid else Nat.repr F.now_ts
  { Resp.base with
    contentType := some "application/xml; charset=utf-8",
    lockToken := some ("<" ++ token ++ ">"),
    body := .lockXml token req_path }

/-- The `Server::handle_proppatch` function: a multistatus that denies
every property. -/
def handle_proppatch (req_path : String) : Resp :=
  { Resp.base with
    status := 207,
    contentType := some "application/xml; charset=utf-8",
    body := .proppatchXml req_path }

/-! ## The method dispatcher (Server::handle, src/server.rs lines 86-250) -/

/-- GET/HEAD on an existing directory (the first arm of the method match):
try-index wins for `?zip`, any render flag routes to the index renderer,
then `?zip`, then `?q=`, then the listing. -/
def get_dir (A : Args) (F : Fs) (path : String) (query : String) (h : ReqHeaders)
    (head_only : Bool) : Option Resp :=
  if A.render_try_index && query == "zip" then
    handle_zip_dir path head_only
  else if A.render_index || A.render_spa || A.render_try_index then
    handle_render_index A F path h head_only
  else if query == "zip" then
    handle_zip_dir path head_only
  else if listStartsWith query.data "q=".data then
    handle_query_dir A F path (String.mk (query.data.drop 2)) head_only
  else
    handle_ls_dir A F path true head_only

/-- The method match of `Server::handle` (source lines 141-248), after the
path has been resolved and probed.  Pure handlers are paired with their
(empty) effect lists. -/
def method_dispatch (A : Args) (F : Fs) (req : Req) (path : String)
    (is_miss is_dir is_file : Bool) (size : Nat) : Option (Resp × List Effect) :=
  let head_only := req.method == "HEAD"
  if req.method == "GET" || req.method == "HEAD" then
    (if is_dir then
      get_dir A F path req.query req.headers head_only
    else if is_file then
      handle_send_file F path req.headers head_only
    else if A.render_spa then
      handle_render_spa A F path req.headers head_only
    else if A.allow_upload && (req.path.data.getLast? == some '/') then
      handle_ls_dir A F path false head_only
    else
      some (status_not_found Resp.base)).map (fun r => (r, []))
  else if req.method == "OPTIONS" then
    some (set_webdav_headers Resp.base, [])
  else if req.method == "PUT" then
    if !A.allow_upload || (!A.allow_delete && is_file && size > 0) then
      some (status_forbid Resp.base, [])
    else handle_upload F path req.body
  else if req.method == "DELETE" then
    if !A.allow_delete then some (status_forbid Resp.base, [])
    else if !is_miss then handle_delete path is_dir
    else some (status_not_found Resp.base, [])
  else if req.method == "PROPFIND" then
    (if is_dir then handle_propfind_dir A F path req.headers
     else if is_file then handle_propfind_file A F path
     else some (status_not_found Resp.base)).map (fun r => (r, []))
  else if req.method == "PROPPATCH" then
    if is_file then some (handle_proppatch req.path, [])
    else some (status_not_found Resp.base, [])
  else if req.method == "MKCOL" then
    if !A.allow_upload || !is_miss then some (status_forbid Resp.base, [])
    else handle_mkcol path
  else if req.method == "COPY" then
    if !A.allow_upload then some (status_forbid Resp.base, [])
    else if is_miss then some (status_not_found Resp.base, [])
    else handle_copy A F path req.headers
  else if req.method == "MOVE" then
    if !A.allow_upload || !A.allow_delete then some (status_forbid Resp.base, [])
    else if is_miss then some (status_not_found Resp.base, [])
    else handle_move A F path req.headers
  else if req.method == "LOCK" then
    if is_file then
      some (handle_lock F req.path req.headers.authorization.isSome, [])
    else some (status_not_found Resp.base, [])
  else if req.method == "UNLOCK" then
    if is_miss then some (status_not_found Resp.base, [])
    else some (Resp.base, [])
  else
    some ({ Resp.base with status := 405 }, [])

/-- Resolution tail of `Server::handle`: probe the resolved path's
metadata, apply the root-containment check (source lines 125-139), then
dispatch on the method. -/
def route_resolved (A : Args) (F : Fs) (req : Req) (path : String) :
    Option (Resp × List Effect) :=
  let probe :=
    match F.metadata path with
    | some meta => (false, meta.is_dir, meta.is_file, meta.len)
    | none => (true, false, false, 0)
  match probe with
  | (is_miss, is_dir, is_file, size) =>
    if !A.allow_symlink && !is_miss && !(is_root_contained A F path) then
      some (status_not_found Resp.base, [])
    else
      method_dispatch A F req path is_miss is_dir is_file size

/-- The `Server::handle` entry point (source lines 86-250): favicon
special-case, access guard, single-file root short-circuit, path
extraction (403 on failure), then the resolved route.  A `none` result is
the `BoxResult` error path, which `Server::call` turns into a 500. -/
def handle (A : Args) (F : Fs) (req : Req) : Option (Resp × List Effect) :=
  if req.path == "/favicon.ico" && req.method == "GET" then
    (handle_send_favicon A F req.headers).map (fun r => (r, []))
  else if (A.auth req.path req.method req.headers.authorization).is_reject then
    some (auth_reject_resp, [])
  else if A.path_is_file then
    (handle_send_file F A.path req.headers (req.method == "HEAD")).map (fun r => (r, []))
  else
    match extract_path A req.path with
    | none => some (status_forbid Resp.base, [])
    | some path => route_resolved A F req path

/-! ## Arithmetic helper -/

/-- Wrapping u64 subtraction agrees with truncated subtraction in range. -/
theorem u64sub_of_le (a b : Nat) (hba : b ≤ a) (ha : a < u64size) : u64sub a b = a - b := by
  have h64 : u64size = 18446744073709551616 := by norm_num [u64size]
  unfold u64sub
  rw [h64]
  rw [h64] at ha
  omega

/-! ## Concrete fixtures

A small world shared by the concrete witnesses and counterexamples: the
root `/srv` holds `hello.txt` (bytes "hello", mtime 1700000000000 ms), a
directory `docs` with one file `a.txt`, and `link`, a symlink whose target
canonicalizes to `/etc/secret` outside the root. -/

/-- Access controller that passes every request. -/
def guardPass : String → String → Option String → GuardType := fun _ _ _ => .pass

/-- Request headers with every field absent. -/
def noHdrs : ReqHeaders := ⟨none, none, none, none, none, none, none⟩

/-- Default configuration: directory root `/srv`, no prefix, all flags off. -/
def baseArgs : Args := ⟨"/srv", false, "", false, false, false, false, false, false, guardPass⟩

/-- Metadata of `/srv/hello.txt`. -/
def mHello : FileMeta := ⟨false, true, false, 5, some 1700000000000⟩

/-- Metadata of `/srv` and `/srv/docs`. -/
def mDir : FileMeta := ⟨true, false, false, 0, some 5000⟩

/-- Metadata of `/srv/docs/a.txt`. -/
def mA : FileMeta := ⟨false, true, false, 1, some 1000⟩

/-- Metadata of `/srv/link` as seen through `fs::metadata` (follows the
symlink). -/
def mLink : FileMeta := ⟨false, true, false, 3, some 2000⟩

/-- The standard fixture filesystem. -/
def fsStd : Fs where
  metadata := fun p =>
    if p = "/srv/hello.txt" then some mHello
    else if p = "/srv/docs" then some mDir
    else if p = "/srv/docs/a.txt" then some mA
    else if p = "/srv/link" then some mLink
    else if p = "/srv" then some mDir
    else none
  symlink_metadata := fun p =>
    if p = "/srv/hello.txt" then some mHello
    else if p = "/srv/docs" then some mDir
    else if p = "/srv/docs/a.txt" then some mA
    else if p = "/srv/link" then some ⟨false, false, true, 3, some 2000⟩
    else if p = "/srv" then some mDir
    else none
  canonicalize := fun p =>
    if p = "/srv/link" then some "/etc/secret"
    else if p = "/srv/hello.txt" ∨ p = "/srv/docs" ∨ p = "/srv/docs/a.txt" ∨ p = "/srv" then
      some p
    else none
  read_dir := fun p => if p = "/srv/docs" then some ["/srv/docs/a.txt"] else none
  walkdir := fun _ => []
  content := fun p =>
    if p = "/srv/hello.txt" then [104, 101, 108, 108, 111]
    else if p = "/srv/docs/a.txt" then [65]
    else []
  create_ok := fun _ => true
  uuid := "0"
  now_ts := 0

/-! ## C1 -/

/-- Filesystem for the C1 counterexample: `/srv/favicon.ico` exists but is
a symlink whose target canonicalizes to `/etc/evil.ico`, outside the root. -/
def c1exFs : Fs where
  metadata := fun p => if p = "/srv/favicon.ico" then some ⟨false, true, false, 3, none⟩ else none
  symlink_metadata := fun p =>
    if p = "/srv/favicon.ico" then some ⟨false, false, true, 3, none⟩ else none
  canonicalize := fun p => if p = "/srv/favicon.ico" then some "/etc/evil.ico" else none
  read_dir := fun _ => none
  walkdir := fun _ => []
  content := fun p => if p = "/srv/favicon.ico" then [1, 2, 3] else []
  create_ok := fun _ => true
  uuid := "0"
  now_ts := 0

/-- The response the C1 counterexample observes: the escaped file served. -/
def c1exResp : Resp :=
  { Resp.base with
    contentLength := some 3,
    contentType := some "image/x-icon",
    contentDisposition := some "inline; filename=\"favicon.ico\"",
    acceptRanges := true,
    body := BodyModel.fileBytes [1, 2, 3] }

/-- C1 counterexample: with follow-symlinks disabled, `GET /favicon.ico`
on a root whose `favicon.ico` is an out-of-root symlink is served by
`handle_send_favicon` with no `is_root_contained` check: the resolved path
exists, does not canonicalize into the root, and yet the server answers
200 with the escaped file's bytes — not the 404 the claim states for
every request. -/
theorem c1_favicon_escape_counterexample :
    baseArgs.allow_symlink = false ∧
    c1exFs.metadata "/srv/favicon.ico" = some ⟨false, true, false, 3, none⟩ ∧
    is_root_contained baseArgs c1exFs "/srv/favicon.ico" = false ∧
    handle baseArgs c1exFs ⟨"GET", "/favicon.ico", "", noHdrs, []⟩ =
      some (c1exResp, []) ∧
    c1exResp.status = 200 ∧ c1exResp.status ≠ 404 ∧
    c1exResp.body = BodyModel.fileBytes (c1exFs.content "/srv/favicon.ico") := by
  refine ⟨by decide, by decide, by decide, by decide, by decide, by decide, by decide⟩

/-- C1 (amended): for every request on an existing resource with
follow-symlinks disabled — except `GET /favicon.ico`, which the favicon
handler serves from `root/favicon.ico` with no containment check — if the
resolved path does not canonicalize into the configured root, the server
answers exactly `status_not_found` (404 with body "Not Found", not 403)
and performs no filesystem side effect. -/
theorem c1_escaping_path_not_found (A : Args) (F : Fs) (req : Req) (p : String) (m : FileMeta)
    (hsym : A.allow_symlink = false)
    (hroot : A.path_is_file = false)
    (hfav : (req.path == "/favicon.ico" && req.method == "GET") = false)
    (hguard : (A.auth req.path req.method req.headers.authorization).is_reject = false)
    (hp : extract_path A req.path = some p)
    (hex : F.metadata p = some m)
    (hnc : is_root_contained A F p = false) :
    handle A F req = some (status_not_found Resp.base, []) := by
  simp only [handle, hfav, Bool.false_eq_true, if_false, hguard, hroot, hp]
  simp only [route_resolved, hex, hsym, hnc]
  simp

/-- C1 witness: `GET /link` on the fixture, where `/srv/link`
canonicalizes to `/etc/secret`, yields the 404 with no effects. -/
theorem c1_escaping_path_not_found_witness :
    handle baseArgs fsStd ⟨"GET", "/link", "", noHdrs, []⟩ =
      some (status_not_found Resp.base, []) :=
  c1_escaping_path_not_found baseArgs fsStd ⟨"GET", "/link", "", noHdrs, []⟩
    "/srv/link" mLink rfl rfl (by decide) (by decide) (by decide) (by decide) (by decide)

/-! ## C2 -/

/-- C2 counterexample: `GET /%zz` (invalid percent escape) is rejected
with `status_forbid` — status 403, not the 404 the claim states. -/
theorem c2_invalid_escape_counterexample :
    handle baseArgs fsStd ⟨"GET", "/%zz", "", noHdrs, []⟩ =
      some (status_forbid Resp.base, []) ∧
    (status_forbid Resp.base).status = 403 ∧ (status_forbid Resp.base).status ≠ 404 := by
  refine ⟨by decide, by decide, by decide⟩

/-- C2 (amended): for every request whose URI path fails to percent-decode,
or whose decoded path does not begin with the configured prefix, the
server rejects the request with `status_forbid` (403, body "Forbidden"),
performing no filesystem side effect. -/
theorem c2_invalid_escape_rejected (A : Args) (F : Fs) (req : Req)
    (hfav : (req.path == "/favicon.ico" && req.method == "GET") = false)
    (hguard : (A.auth req.path req.method req.headers.authorization).is_reject = false)
    (hroot : A.path_is_file = false)
    (hbad : decode_uri (String.mk (req.path.data.drop 1)) = none ∨
      ∃ d, decode_uri (String.mk (req.path.data.drop 1)) = some d ∧ stripPathPre A d = none) :
    handle A F req = some (status_forbid Resp.base, []) := by
  have hep : extract_path A req.path = none := by
    rcases hbad with h | ⟨d, hd, hs⟩
    · have h' : decode_uri (String.mk req.path.data.tail) = none := by
        simpa [List.drop_one] using h
      simp [extract_path, h']
    · have h' : decode_uri (String.mk req.path.data.tail) = some d := by
        simpa [List.drop_one] using hd
      simp [extract_path, h', hs]
  simp only [handle, hfav, Bool.false_eq_true, if_false, hguard, hroot, hep]

/-- C2 witness: with prefix `files` configured, `GET /other/x.txt` (prefix
absent) is rejected 403. -/
theorem c2_invalid_escape_rejected_witness :
    handle { baseArgs with prefixPath := "files" } fsStd
        ⟨"GET", "/other/x.txt", "", noHdrs, []⟩ =
      some (status_forbid Resp.base, []) :=
  c2_invalid_escape_rejected { baseArgs with prefixPath := "files" } fsStd
    ⟨"GET", "/other/x.txt", "", noHdrs, []⟩ (by decide) (by decide) rfl
    (Or.inr ⟨"other/x.txt", by decide, by decide⟩)

/-! ## C3 -/

/-- C3: for every GET of an existing file with a `Range: bytes=a-b` header
(and no conflicting conditional headers), where a ≤ b < size, the
response is 206, its body is exactly bytes a..=b of the file,
Content-Length is b - a + 1, and Content-Range is `bytes a-b/size`. -/
theorem c3_range_request_partial_content (A : Args) (F : Fs) (req : Req) (p fn : String)
    (meta : FileMeta) (a b : Nat) (rs : String)
    (hm : req.method = "GET")
    (hfav : (req.path == "/favicon.ico") = false)
    (hguard : (A.auth req.path req.method req.headers.authorization).is_reject = false)
    (hroot : A.path_is_file = false)
    (hp : extract_path A req.path = some p)
    (hmeta : F.metadata p = some meta)
    (hfile : meta.is_file = true)
    (hdir : meta.is_dir = false)
    (hfn : fileName p = some fn)
    (hsafe : A.allow_symlink = true ∨ is_root_contained A F p = true)
    (hrange : req.headers.range = some rs)
    (hparse : parse_range rs = some ⟨a, some b⟩)
    (hinm : req.headers.if_none_match = none)
    (hims : req.headers.if_modified_since = none)
    (hir : req.headers.if_range = none)
    (hab : a ≤ b)
    (hb : b < meta.len)
    (hbound : meta.len < u64size) :
    ∃ r, handle A F req = some (r, []) ∧
      r.status = 206 ∧
      r.body = BodyModel.fileBytes (((F.content p).drop a).take (b - a + 1)) ∧
      r.contentLength = some (b - a + 1) ∧
      r.contentRange = some ("bytes " ++ Nat.repr a ++ "-" ++ Nat.repr b ++ "/" ++
        Nat.repr meta.len) := by
  have h64 : u64size = 18446744073709551616 := by norm_num [u64size]
  have hsz1 : u64sub meta.len 1 = meta.len - 1 := u64sub_of_le _ _ (by omega) hbound
  have hsubba : u64sub b a = b - a := u64sub_of_le _ _ hab (by omega)
  have hmin : min b (meta.len - 1) = b := by omega
  have hps : (u64sub b a + 1) % u64size = b - a + 1 := by
    rw [hsubba]
    apply Nat.mod_eq_of_lt
    omega
  have hsend : ∃ r, handle_send_file F p req.headers false = some r ∧
      r.status = 206 ∧
      r.body = BodyModel.fileBytes (((F.content p).drop a).take (b - a + 1)) ∧
      r.contentLength = some (b - a + 1) ∧
      r.contentRange = some ("bytes " ++ Nat.repr a ++ "-" ++ Nat.repr b ++ "/" ++
        Nat.repr meta.len) := by
    cases hmod : meta.modified with
    | none =>
      unfold handle_send_file
      simp [hmeta, extract_cache_headers, hmod, hinm, hims, hir, hrange, hparse, hfn,
        hsz1, hmin, hps, ge_iff_le, hab]
    | some mt =>
      unfold handle_send_file
      simp [hmeta, extract_cache_headers, hmod, hinm, hims, hir, hrange, hparse, hfn,
        hsz1, hmin, hps, ge_iff_le, hab]
  obtain ⟨r, hr, h1, h2, h3, h4⟩ := hsend
  refine ⟨r, ?_, h1, h2, h3, h4⟩
  rw [hm] at hguard
  simp only [handle, route_resolved, method_dispatch, hm, hfav, hguard, hroot, hp, hmeta,
    hfile, hdir]
  rcases hsafe with h | h <;> simp [h, hguard, hfav, hr]

/-- C3 witness: `GET /hello.txt` with `Range: bytes=1-3` on the fixture
yields 206 with body "ell", Content-Length 3 and `bytes 1-3/5`. -/
theorem c3_range_request_partial_content_witness :
    ∃ r, handle baseArgs fsStd
        ⟨"GET", "/hello.txt", "", { noHdrs with range := some "bytes=1-3" }, []⟩ =
        some (r, []) ∧
      r.status = 206 ∧
      r.body = BodyModel.fileBytes (((fsStd.content "/srv/hello.txt").drop 1).take (3 - 1 + 1)) ∧
      r.contentLength = some (3 - 1 + 1) ∧
      r.contentRange = some ("bytes " ++ Nat.repr 1 ++ "-" ++ Nat.repr 3 ++ "/" ++
        Nat.repr mHello.len) :=
  c3_range_request_partial_content baseArgs fsStd
    ⟨"GET", "/hello.txt", "", { noHdrs with range := some "bytes=1-3" }, []⟩
    "/srv/hello.txt" "hello.txt" mHello 1 3 "bytes=1-3"
    rfl (by decide) (by decide) rfl (by decide) (by decide) rfl rfl (by decide)
    (Or.inr (by decide)) rfl (by decide) rfl rfl rfl (by decide) (by decide) (by decide)

/-! ## C4 -/

/-- C4: evaluation of the code at the failing input.  `GET /hello.txt`
with `Range: bytes=5-7` on the 5-byte fixture file — a range whose start
is at the end of the file, unsatisfiable per the claim — is answered 206
(not 416): the satisfiability test `end >= start` ignores the file size,
the clamped end 4 falls below the start 5, and the u64 length arithmetic
wraps to 0 (it panics in a debug build). -/
theorem c4_unsatisfiable_range_failing_eval :
    handle baseArgs fsStd
        ⟨"GET", "/hello.txt", "", { noHdrs with range := some "bytes=5-7" }, []⟩ =
      some ({ Resp.base with
              status := 206,
              etagH := some "\"1700000000000-5\"",
              lastModifiedH := some 1700000000000,
              contentRange := some "bytes 5-4/5",
              contentLength := some 0,
              contentType := some "text/plain",
              contentDisposition := some "inline; filename=\"hello.txt\"",
              acceptRanges := true,
              body := BodyModel.fileBytes [] }, []) ∧
    (206 : Nat) ≠ 416 := by
  refine ⟨by decide, by decide⟩

/-! ## C5 -/

/-- C5 counterexample: a GET with `If-None-Match` equal to the computed
ETag is answered 304 with an empty body, but the response carries neither
the ETag nor the Last-Modified validator — the handler returns before
inserting them — contradicting the claim's "carries the ETag and
Last-Modified validators in its headers". -/
theorem c5_not_modified_counterexample :
    handle baseArgs fsStd
        ⟨"GET", "/hello.txt", "",
          { noHdrs with if_none_match := some (.tags ["\"1700000000000-5\""]) }, []⟩ =
      some ({ Resp.base with status := 304 }, []) ∧
    ({ Resp.base with status := 304 }).etagH = none ∧
    ({ Resp.base with status := 304 }).lastModifiedH = none := by
  refine ⟨by decide, by decide, by decide⟩

/-- C5 (amended): for every GET/HEAD of an existing file, `If-None-Match`
is evaluated against the computed ETag, `If-Modified-Since` against the
mtime only when `If-None-Match` is absent, and a positive match yields
status 304 with an empty body and no validator headers (the response is
the bare default apart from the status). -/
theorem c5_not_modified_304 (A : Args) (F : Fs) (req : Req) (p : String) (meta : FileMeta)
    (mt : Nat)
    (hm : req.method = "GET" ∨ req.method = "HEAD")
    (hfav : (req.path == "/favicon.ico") = false)
    (hguard : (A.auth req.path req.method req.headers.authorization).is_reject = false)
    (hroot : A.path_is_file = false)
    (hp : extract_path A req.path = some p)
    (hmeta : F.metadata p = some meta)
    (hfile : meta.is_file = true)
    (hdir : meta.is_dir = false)
    (hsafe : A.allow_symlink = true ∨ is_root_contained A F p = true)
    (hmt : meta.modified = some mt)
    (hpos : (∃ inm, req.headers.if_none_match = some inm ∧
               ifNoneMatchBlocks inm
                 ("\"" ++ Nat.repr mt ++ "-" ++ Nat.repr meta.len ++ "\"") = true) ∨
            (req.headers.if_none_match = none ∧
             ∃ ims, req.headers.if_modified_since = some ims ∧
               isModifiedAfter mt ims = false)) :
    handle A F req = some ({ Resp.base with status := 304 }, []) := by
  have hsend : ∀ ho, handle_send_file F p req.headers ho =
      some { Resp.base with status := 304 } := by
    intro ho
    unfold handle_send_file
    rcases hpos with ⟨inm, hinm, hblocks⟩ | ⟨hinm, ims, hims, hnm⟩
    · simp [hmeta, extract_cache_headers, hmt, hinm, hblocks]
    · simp [hmeta, extract_cache_headers, hmt, hinm, hims, hnm]
  rcases hm with hm | hm <;> rw [hm] at hguard <;>
    simp only [handle, route_resolved, method_dispatch, hm, hfav, hguard, hroot, hp, hmeta,
      hfile, hdir] <;>
    rcases hsafe with h | h <;>
    simp [h, hguard, hsend, hfav]

/-- C5 witness: `GET /hello.txt` with `If-Modified-Since` at the file's
truncated-to-second mtime (and no `If-None-Match`) yields the bare 304. -/
theorem c5_not_modified_304_witness :
    handle baseArgs fsStd
        ⟨"GET", "/hello.txt", "", { noHdrs with if_modified_since := some 1700000000 }, []⟩ =
      some ({ Resp.base with status := 304 }, []) :=
  c5_not_modified_304 baseArgs fsStd
    ⟨"GET", "/hello.txt", "", { noHdrs with if_modified_since := some 1700000000 }, []⟩
    "/srv/hello.txt" mHello 1700000000000
    (Or.inl rfl) (by decide) (by decide) rfl (by decide) (by decide) rfl rfl
    (Or.inr (by decide)) rfl (Or.inr ⟨rfl, 1700000000, rfl, by decide⟩)

/-! ## C6 -/

/-- C6 counterexample: with `render_index` enabled (try-index off), `GET
/docs?zip` on the fixture directory, which has no index.html, is answered
404 by the index renderer rather than the claimed ZIP stream. -/
theorem c6_zip_query_counterexample :
    handle { baseArgs with render_index := true } fsStd
        ⟨"GET", "/docs", "zip", noHdrs, []⟩ =
      some (status_not_found Resp.base, []) ∧
    (status_not_found Resp.base).contentType ≠ some "application/zip" ∧
    (status_not_found Resp.base).body ≠ BodyModel.zipStream "/srv/docs" := by
  refine ⟨by decide, by decide, by decide⟩

/-- C6 (amended): a GET on an existing directory with query exactly `zip`
is answered by the ZIP streamer — `application/zip` with an attachment
disposition naming `<dirname>.zip` — when render-try-index is enabled or
when none of the three directory-render flags is; when render-index or
render-spa is set without render-try-index, the index renderer handles
the request instead. -/
theorem c6_zip_query_dispatch (A : Args) (F : Fs) (req : Req) (p dn : String)
    (meta : FileMeta)
    (hm : req.method = "GET")
    (hfav : (req.path == "/favicon.ico") = false)
    (hguard : (A.auth req.path req.method req.headers.authorization).is_reject = false)
    (hroot : A.path_is_file = false)
    (hp : extract_path A req.path = some p)
    (hmeta : F.metadata p = some meta)
    (hdir : meta.is_dir = true)
    (hsafe : A.allow_symlink = true ∨ is_root_contained A F p = true)
    (hq : req.query = "zip")
    (hfn : fileName p = some dn)
    (hflags : A.render_try_index = true ∨
      (A.render_index = false ∧ A.render_spa = false ∧ A.render_try_index = false)) :
    handle A F req = some ({ Resp.base with
      contentDisposition := some ("attachment; filename=\"" ++ encode_uri dn ++ ".zip\""),
      contentType := some "application/zip",
      body := BodyModel.zipStream p }, []) := by
  rw [hm] at hguard
  have hzip : handle_zip_dir p false = some { Resp.base with
      contentDisposition := some ("attachment; filename=\"" ++ encode_uri dn ++ ".zip\""),
      contentType := some "application/zip",
      body := BodyModel.zipStream p } := by
    unfold handle_zip_dir
    simp [hfn]
  simp only [handle, route_resolved, method_dispatch, get_dir, hm, hfav, hguard, hroot, hp,
    hmeta, hdir, hq]
  rcases hflags with hf | ⟨hf1, hf2, hf3⟩
  · rcases hsafe with h | h <;> simp [h, hguard, hfav, hf, hzip]
  · rcases hsafe with h | h <;> simp [h, hguard, hfav, hf1, hf2, hf3, hzip]

/-- C6 witness: with all render flags off, `GET /docs?zip` streams the
ZIP of `/srv/docs`. -/
theorem c6_zip_query_dispatch_witness :
    handle baseArgs fsStd ⟨"GET", "/docs", "zip", noHdrs, []⟩ =
      some ({ Resp.base with
        contentDisposition := some ("attachment; filename=\"" ++ encode_uri "docs" ++ ".zip\""),
        contentType := some "application/zip",
        body := BodyModel.zipStream "/srv/docs" }, []) :=
  c6_zip_query_dispatch baseArgs fsStd ⟨"GET", "/docs", "zip", noHdrs, []⟩
    "/srv/docs" "docs" mDir rfl (by decide) (by decide) rfl (by decide) (by decide) rfl
    (Or.inr (by decide)) rfl (by decide) (Or.inr ⟨rfl, rfl, rfl⟩)

/-! ## C7 -/

/-- C7 counterexample: `PROPFIND /docs` with `Depth: infinity` is answered
400 Bad Request — the depth header is parsed as a u32 and `infinity` is
not numeric — not the claimed 207 multistatus bounded to depth 1. -/
theorem c7_depth_infinity_counterexample :
    handle baseArgs fsStd
        ⟨"PROPFIND", "/docs", "", { noHdrs with depth := some "infinity" }, []⟩ =
      some ({ Resp.base with status := 400 }, []) ∧
    (400 : Nat) ≠ 207 := by
  refine ⟨by decide, by decide⟩

/-- C7 (amended): for every PROPFIND on an existing directory, `Depth: 0`
yields a 207 multistatus holding the directory itself only; a missing
depth header or any numeric depth at least 1 yields the directory plus its
immediate children; a non-numeric depth value — `infinity` included — is
answered 400 Bad Request. -/
theorem c7_propfind_depth (A : Args) (F : Fs) (req : Req) (p : String) (meta : FileMeta)
    (si : PathItem) (ch : List PathItem)
    (hm : req.method = "PROPFIND")
    (hguard : (A.auth req.path req.method req.headers.authorization).is_reject = false)
    (hroot : A.path_is_file = false)
    (hp : extract_path A req.path = some p)
    (hmeta : F.metadata p = some meta)
    (hdir : meta.is_dir = true)
    (hsafe : A.allow_symlink = true ∨ is_root_contained A F p = true)
    (hself : to_pathitem A F p A.path = some (some si))
    (hch : list_dir A F p A.path = some ch) :
    (req.headers.depth = some "0" → handle A F req = some (res_multistatus [si], [])) ∧
    (req.headers.depth = none → handle A F req = some (res_multistatus (si :: ch), [])) ∧
    (∀ v d, req.headers.depth = some v → parseUBounded u32size v.data = some d → d ≠ 0 →
      handle A F req = some (res_multistatus (si :: ch), [])) ∧
    (∀ v, req.headers.depth = some v → parseUBounded u32size v.data = none →
      handle A F req = some ({ Resp.base with status := 400 }, [])) := by
  rw [hm] at hguard
  have hcommon : handle A F req =
      (handle_propfind_dir A F p req.headers).map (fun r => (r, [])) := by
    simp only [handle, route_resolved, method_dispatch, hm, hguard, hroot, hp, hmeta, hdir]
    rcases hsafe with h | h <;> simp [h, hguard]
  have hp0 : parseUBounded u32size "0".data = some 0 := by decide
  refine ⟨?_, ?_, ?_, ?_⟩
  · intro hd
    simp [hcommon, handle_propfind_dir, hd, hp0, propfind_core, hself, hch]
  · intro hd
    simp [hcommon, handle_propfind_dir, hd, propfind_core, hself, hch]
  · intro v d hd hpv hdn
    simp [hcommon, handle_propfind_dir, hd, hpv, propfind_core, hself, hch, hdn]
  · intro v hd hpv
    simp [hcommon, handle_propfind_dir, hd, hpv]

/-- C7 witness: `PROPFIND /docs` with `Depth: 1` yields the multistatus
with the directory and its one child. -/
theorem c7_propfind_depth_witness :
    handle baseArgs fsStd ⟨"PROPFIND", "/docs", "", { noHdrs with depth := some "1" }, []⟩ =
      some (res_multistatus (⟨.Dir, "docs", 5000, none⟩ ::
        [⟨.File, "docs/a.txt", 1000, some 1⟩]), []) :=
  (c7_propfind_depth baseArgs fsStd
    ⟨"PROPFIND", "/docs", "", { noHdrs with depth := some "1" }, []⟩
    "/srv/docs" mDir ⟨.Dir, "docs", 5000, none⟩ [⟨.File, "docs/a.txt", 1000, some 1⟩]
    rfl (by decide) rfl (by decide) (by decide) rfl (Or.inr (by decide)) (by decide)
    (by decide)).2.2.1 "1" 1 rfl (by decide) (by decide)

/-! ## C8 -/

/-- C8: for every PUT on an existing file (with a creatable target and an
existing parent), the upload proceeds — file overwritten with the request
body, status 201 — exactly when upload is allowed and (delete is allowed
or the file is empty); otherwise the response is 403 Forbidden and no
filesystem effect takes place. -/
theorem c8_put_existing_file (A : Args) (F : Fs) (req : Req) (p : String) (meta : FileMeta)
    (hm : req.method = "PUT")
    (hguard : (A.auth req.path req.method req.headers.authorization).is_reject = false)
    (hroot : A.path_is_file = false)
    (hp : extract_path A req.path = some p)
    (hmeta : F.metadata p = some meta)
    (hfile : meta.is_file = true)
    (hsafe : A.allow_symlink = true ∨ is_root_contained A F p = true)
    (hcreate : F.create_ok p = true)
    (hparent : ((parentDir p).all fun par => !(F.symlink_metadata par).isNone) = true) :
    handle A F req =
      if A.allow_upload = true ∧ (A.allow_delete = true ∨ meta.len = 0)
      then some ({ Resp.base with status := 201 }, [Effect.createFile p req.body])
      else some (status_forbid Resp.base, []) := by
  rw [hm] at hguard
  have hup : handle_upload F p req.body =
      some ({ Resp.base with status := 201 }, [Effect.createFile p req.body]) := by
    unfold handle_upload
    cases hpd : parentDir p with
    | none => simp [hpd, hcreate]
    | some par =>
      rw [hpd] at hparent
      simp only [Option.all, Bool.not_eq_true', Option.isNone_iff_eq_none] at hparent
      simp [hpd, hcreate, hparent]
  simp only [handle, route_resolved, method_dispatch, hm, hguard, hroot, hp, hmeta, hfile]
  rcases hsafe with h | h <;>
    cases hu : A.allow_upload <;> cases hd : A.allow_delete <;> cases hl : meta.len <;>
    simp [h, hu, hd, hl, hup, hguard]

/-- C8 witness: with upload and delete allowed, `PUT /hello.txt` with body
"BC" overwrites the file and answers 201 with exactly that create effect. -/
theorem c8_put_existing_file_witness :
    handle { baseArgs with allow_upload := true, allow_delete := true } fsStd
        ⟨"PUT", "/hello.txt", "", noHdrs, [66, 67]⟩ =
      some ({ Resp.base with status := 201 },
        [Effect.createFile "/srv/hello.txt" [66, 67]]) := by
  rw [c8_put_existing_file { baseArgs with allow_upload := true, allow_delete := true } fsStd
    ⟨"PUT", "/hello.txt", "", noHdrs, [66, 67]⟩ "/srv/hello.txt" mHello
    rfl (by decide) rfl (by decide) (by decide) rfl (Or.inr (by decide)) (by decide)
    (by decide)]
  decide

/-! ## C9 -/

/-- C9 counterexample: UNLOCK on the existing fixture file is answered
with the untouched default response — status 200, not the claimed 204. -/
theorem c9_unlock_counterexample :
    handle baseArgs fsStd ⟨"UNLOCK", "/hello.txt", "", noHdrs, []⟩ =
      some (Resp.base, []) ∧
    Resp.base.status = 200 ∧ Resp.base.status ≠ 204 := by
  refine ⟨by decide, by decide, by decide⟩

/-- C9 (amended): for every UNLOCK request, the response is the default
200 (the handler is a no-op) when the resource exists and 404 when it does
not; in neither case is any filesystem state changed. -/
theorem c9_unlock_status (A : Args) (F : Fs) (req : Req) (p : String)
    (hm : req.method = "UNLOCK")
    (hguard : (A.auth req.path req.method req.headers.authorization).is_reject = false)
    (hroot : A.path_is_file = false)
    (hp : extract_path A req.path = some p)
    (hsafe : A.allow_symlink = true ∨ is_root_contained A F p = true) :
    (∀ m, F.metadata p = some m → handle A F req = some (Resp.base, [])) ∧
    (F.metadata p = none → handle A F req = some (status_not_found Resp.base, [])) := by
  rw [hm] at hguard
  constructor
  · intro m hmet
    simp only [handle, route_resolved, method_dispatch, hm, hguard, hroot, hp, hmet]
    rcases hsafe with h | h <;> simp [h, hguard]
  · intro hmet
    simp only [handle, route_resolved, method_dispatch, hm, hguard, hroot, hp, hmet]
    simp [hguard]

/-- C9 witness: UNLOCK on the existing fixture directory yields the
default 200 response with no effects. -/
theorem c9_unlock_status_witness :
    handle baseArgs fsStd ⟨"UNLOCK", "/docs", "", noHdrs, []⟩ = some (Resp.base, []) :=
  (c9_unlock_status baseArgs fsStd ⟨"UNLOCK", "/docs", "", noHdrs, []⟩ "/srv/docs"
    rfl (by decide) rfl (by decide) (Or.inr (by decide))).1 mDir (by decide)

/-! ## C10 -/

/-- Single-file-root configuration for C10: the root is `/srv/file.txt`. -/
def c10args : Args :=
  ⟨"/srv/file.txt", true, "", false, false, false, false, false, false, guardPass⟩

/-- Filesystem for C10: only the root file exists (2 bytes "hi"). -/
def c10fs : Fs where
  metadata := fun p => if p = "/srv/file.txt" then some ⟨false, true, false, 2, none⟩ else none
  symlink_metadata := fun _ => none
  canonicalize := fun _ => none
  read_dir := fun _ => none
  walkdir := fun _ => []
  content := fun p => if p = "/srv/file.txt" then [104, 105] else []
  create_ok := fun _ => true
  uuid := "0"
  now_ts := 0

/-- The embedded-favicon response the C10 counterexample observes. -/
def c10favResp : Resp :=
  { Resp.base with contentType := some "image/x-icon", body := BodyModel.faviconBytes }

/-- The file-streamer response on the C10 root file. -/
def c10sendResp : Resp :=
  { Resp.base with
    contentLength := some 2,
    contentType := some "text/plain",
    contentDisposition := some "inline; filename=\"file.txt\"",
    acceptRanges := true,
    body := BodyModel.fileBytes [104, 105] }

/-- C10 counterexample: with a single-file root and a guard that passes
everything, `GET /favicon.ico` — a request the access controller would
pass — is intercepted by the favicon handler before the file-root branch
and answered with the embedded icon, which differs from the file
streamer's answer on the root file. -/
theorem c10_file_root_counterexample :
    handle c10args c10fs ⟨"GET", "/favicon.ico", "", noHdrs, []⟩ = some (c10favResp, []) ∧
    handle_send_file c10fs "/srv/file.txt" noHdrs false = some c10sendResp ∧
    c10favResp ≠ c10sendResp := by
  refine ⟨by decide, by decide, by decide⟩

/-- C10 (amended): when the configured root is a single file, every
request that passes access control — except `GET /favicon.ico`, which the
favicon handler intercepts earlier — is answered by the file streamer on
that root file, for any method, path and query, with no path resolution,
existence probe, method dispatch, or filesystem effect. -/
theorem c10_file_root_short_circuit (A : Args) (F : Fs) (req : Req)
    (hroot : A.path_is_file = true)
    (hfav : (req.path == "/favicon.ico" && req.method == "GET") = false)
    (hguard : (A.auth req.path req.method req.headers.authorization).is_reject = false) :
    handle A F req =
      (handle_send_file F A.path req.headers (req.method == "HEAD")).map
        (fun r => (r, [])) := by
  simp only [handle, hfav, Bool.false_eq_true, if_false, hguard, hroot, if_true]

/-- C10 witness: with the single-file root, even a `PROPFIND` with a
search query is answered by the file streamer on the root. -/
theorem c10_file_root_short_circuit_witness :
    handle c10args c10fs ⟨"PROPFIND", "/whatever", "q=zip", noHdrs, []⟩ =
      (handle_send_file c10fs c10args.path noHdrs (("PROPFIND" : String) == "HEAD")).map
        (fun r => (r, [])) :=
  c10_file_root_short_circuit c10args c10fs ⟨"PROPFIND", "/whatever", "q=zip", noHdrs, []⟩
    rfl (by decide) (by decide)
